import Mathlib

/-!
Shallow embedding of the k1-saferweb-relay repository (two HTTP endpoint
files: `src/api/carrier-scorecard.js` and `src/api/safer-relay.js`).

JavaScript numbers are modelled as `Nat`/`Int` where the source only ever
compares and adds integers, and as `Rat` where fractional arithmetic occurs
(OOS rates, category weights). `Math.round x` is `Int.round` (both equal
`⌊x + 1/2⌋`). Missing JSON fields are `Option`; JS truthiness on strings
(`undefined` and `""` are falsy) is made explicit by helper functions.
-/

namespace CarrierScorecard

/-- The flat carrier profile consumed by `calculateScorecard`
(`src/api/carrier-scorecard.js`): exactly the fields the category
functions and `checkRejectTriggers` destructure from `data`. -/
structure CarrierData where
  usdot_status : String
  operating_authority_status : String
  authority_age_months : Nat
  mcs150_biennial_update : String
  safety_rating : String
  drug_alcohol_violations : Nat
  fatal_crashes : Nat
  injury_crashes : Nat
  fatal_crash_at_fault : Bool
  authority_scope_mismatch : Bool
  contact_mismatch : Bool
  email_type : String
  insurance_holder_is_third_party : Bool
  insurer_callback_status : String
  load_reposting_observed : Bool
  reposting_disclosed : Bool
  vehicle_oos_rate_pct : Rat
  driver_oos_rate_pct : Rat
  national_avg_vehicle : Rat
  national_avg_driver : Rat
  total_inspections_24mo : Nat
  bipd_filing_active : Bool
  bipd_limit_usd : Nat
  cargo_insurance_verified : Bool
  website_active_12mo : Bool
  facebook_active_12mo : Bool
  address_consistent_with_fmcsa : Bool
  growth_trend_pct : Rat
  deriving DecidableEq

/-- A category result `{ score, maxScore }`. -/
structure CatScore where
  score : Nat
  maxScore : Nat
  deriving DecidableEq

/-- `calculateAuthorityAge` (carrier-scorecard.js lines 57-71). -/
def calculateAuthorityAge (data : CarrierData) : CatScore :=
  { score :=
      (if data.usdot_status = "Active" then 25 else 0)
    + (if data.operating_authority_status = "Active" then 35 else 0)
    + (if 36 ≤ data.authority_age_months then 25
       else if 24 ≤ data.authority_age_months then 18
       else if 12 ≤ data.authority_age_months then 10
       else 0)
    + (if data.mcs150_biennial_update = "Current" then 15 else 0),
    maxScore := 100 }

/-- `calculateDoubleBrokerageRisk` (carrier-scorecard.js lines 73-98). -/
def calculateDoubleBrokerageRisk (data : CarrierData) : CatScore :=
  { score :=
      (if data.authority_scope_mismatch = false then 18 else 0)
    + (if data.contact_mismatch = false then 10 else 0)
    + (if data.email_type = "DomainMatch" then 12
       else if data.email_type = "FreeEmail" then 4
       else 0)
    + (if data.insurance_holder_is_third_party = false then 18 else 0)
    + (if data.insurer_callback_status = "Verified" then 22
       else if data.insurer_callback_status = "NotDone" then 8
       else 0)
    + (if data.load_reposting_observed = false then 20 else 0),
    maxScore := 100 }

/-- `calculateSafetyCompliance` (carrier-scorecard.js lines 100-115). -/
def calculateSafetyCompliance (data : CarrierData) : CatScore :=
  { score :=
      (if data.safety_rating = "Satisfactory" then 35
       else if data.safety_rating = "None" then 22
       else if data.safety_rating = "Conditional" then 8
       else 0)
    + (if data.drug_alcohol_violations = 0 then 30 else 0)
    + (if data.fatal_crashes = 0 then 20 else 0)
    + (if data.injury_crashes = 0 then 15
       else if data.injury_crashes ≤ 2 then 8
       else 0),
    maxScore := 100 }

/-- `calculateInspectionsOOS` (carrier-scorecard.js lines 117-136). -/
def calculateInspectionsOOS (data : CarrierData) : CatScore :=
  { score :=
      (if data.vehicle_oos_rate_pct ≤ data.national_avg_vehicle * 0.8 then 45
       else if data.vehicle_oos_rate_pct ≤ data.national_avg_vehicle then 35
       else if data.vehicle_oos_rate_pct ≤ data.national_avg_vehicle * 1.2 then 20
       else 0)
    + (if data.driver_oos_rate_pct ≤ data.national_avg_driver * 0.8 then 35
       else if data.driver_oos_rate_pct ≤ data.national_avg_driver then 25
       else if data.driver_oos_rate_pct ≤ data.national_avg_driver * 1.2 then 10
       else 0)
    + (if 15 ≤ data.total_inspections_24mo then 20
       else if 5 ≤ data.total_inspections_24mo then 10
       else 5),
    maxScore := 100 }

/-- `calculateInsuranceVerification` (carrier-scorecard.js lines 138-155). -/
def calculateInsuranceVerification (data : CarrierData) : CatScore :=
  { score :=
      (if data.bipd_filing_active then 40 else 0)
    + (if 1000000 ≤ data.bipd_limit_usd then 25
       else if 750000 ≤ data.bipd_limit_usd then 15
       else 5)
    + (if data.cargo_insurance_verified then 15 else 5)
    + (if data.insurer_callback_status = "Verified" then 20
       else if data.insurer_callback_status = "NotDone" then 5
       else 0),
    maxScore := 100 }

/-- `calculateBusinessLegitimacy` (carrier-scorecard.js lines 157-175). -/
def calculateBusinessLegitimacy (data : CarrierData) : CatScore :=
  { score :=
      (if data.website_active_12mo then 35 else 10)
    + (if data.facebook_active_12mo then 20 else 10)
    + (if data.address_consistent_with_fmcsa then 25 else 0)
    + (if 30 ≤ data.growth_trend_pct then 20
       else if 11 ≤ data.growth_trend_pct then 18
       else if 2 ≤ data.growth_trend_pct then 10
       else if 1 ≤ data.growth_trend_pct then 5
       else 0),
    maxScore := 100 }

/-- A reject trigger `{ id, reason }`. -/
structure Trigger where
  id : String
  reason : String
  deriving DecidableEq

/-- `checkRejectTriggers` (carrier-scorecard.js lines 177-209): the pushes
happen in source order, modelled as list concatenation. -/
def checkRejectTriggers (data : CarrierData) : List Trigger :=
  (if 0 < data.fatal_crashes ∧ data.fatal_crash_at_fault = true then
     [⟨"SAFETY_FATAL_CRASH", "Fatal crash with carrier fault"⟩] else [])
  ++ (if 0 < data.drug_alcohol_violations then
     [⟨"SAFETY_DRUG_ALCOHOL", "Drug/Alcohol violation present"⟩] else [])
  ++ (if data.safety_rating = "Unsatisfactory" then
     [⟨"SAFETY_RATING_UNSAT", "FMCSA safety rating Unsatisfactory"⟩] else [])
  ++ (if data.insurer_callback_status = "Refused" then
     [⟨"DB_REFUSED_INSURER_CALLBACK", "Refused insurer callback"⟩] else [])
  ++ (if data.authority_scope_mismatch = true then
     [⟨"DB_OUTSIDE_AUTHORITY_SCOPE", "Operating outside authority scope"⟩] else [])
  ++ (if data.insurance_holder_is_third_party = true then
     [⟨"DB_THIRD_PARTY_INS_HOLDER", "Third party listed as insurance holder"⟩] else [])
  ++ (if data.load_reposting_observed = true ∧ data.reposting_disclosed = false then
     [⟨"DB_REPOSTING_NO_DISCLOSURE", "Load reposting without disclosure"⟩] else [])

/-- A recommendation `{ text, riskLevel }`. -/
structure Recommendation where
  text : String
  riskLevel : String
  deriving DecidableEq

/-- `getRecommendation` (carrier-scorecard.js lines 211-219). -/
def getRecommendation (score : Int) (triggers : List Trigger) : Recommendation :=
  if 0 < triggers.length then
    ⟨"Reject / Do Not Use", "High Risk (Auto-Reject)"⟩
  else if 86 ≤ score then ⟨"Approved Low Risk", "Low Risk"⟩
  else if 75 ≤ score then ⟨"Conditional Verification Required", "Moderate Risk"⟩
  else ⟨"Reject / Do Not Use", "High Risk"⟩

/-- The object returned by `calculateScorecard`. -/
structure Scorecard where
  version : String
  name : String
  score : Int
  recommendation : String
  riskLevel : String
  fmcsaAuthorityAge : CatScore
  doubleBrokerageRisk : CatScore
  safetyCompliance : CatScore
  inspectionsOOS : CatScore
  insuranceVerification : CatScore
  businessLegitimacy : CatScore
  rejectTriggers : List Trigger
  checkedAt : String
  deriving DecidableEq

/-- `calculateScorecard` (carrier-scorecard.js lines 14-55). The weighted
total is rounded with `Math.round`, i.e. `⌊x + 1/2⌋`; the wall-clock
`new Date().toISOString()` is the explicit parameter `now`. -/
def calculateScorecard (data : CarrierData) (now : String) : Scorecard :=
  let c1 := calculateAuthorityAge data
  let c2 := calculateDoubleBrokerageRisk data
  let c3 := calculateSafetyCompliance data
  let c4 := calculateInspectionsOOS data
  let c5 := calculateInsuranceVerification data
  let c6 := calculateBusinessLegitimacy data
  let totalScore : Int := round
    ((c1.score : Rat) * 0.20 + (c2.score : Rat) * 0.25 + (c3.score : Rat) * 0.20
     + (c4.score : Rat) * 0.15 + (c5.score : Rat) * 0.15 + (c6.score : Rat) * 0.05)
  let triggers := checkRejectTriggers data
  let rec' := getRecommendation totalScore triggers
  { version := "1.0.0",
    name := "Standard Carrier Scorecard Auto-Scoring Model",
    score := totalScore,
    recommendation := rec'.text,
    riskLevel := rec'.riskLevel,
    fmcsaAuthorityAge := c1,
    doubleBrokerageRisk := c2,
    safetyCompliance := c3,
    inspectionsOOS := c4,
    insuranceVerification := c5,
    businessLegitimacy := c6,
    rejectTriggers := triggers,
    checkedAt := now }

end CarrierScorecard

/-! JS truthiness helpers shared by both HTTP handlers: `undefined` and the
empty string are falsy; the number `0` is falsy. -/

/-- Truthiness of an optional JS string (`!s` is true for `undefined` and `""`). -/
def jsTruthy (o : Option String) : Bool :=
  match o with
  | none => false
  | some s => s ≠ ""

/-- `a || d` where `a` is an optional JS string and `d` a string default. -/
def jsOrStr (o : Option String) (d : String) : String :=
  match o with
  | none => d
  | some s => if s = "" then d else s

/-- `a || b` on optional JS strings (used for `usdot_number || mc_number`). -/
def jsOrOpt (a b : Option String) : Option String :=
  if jsTruthy a then a else b

/-- An optional JS number with `0` collapsed to falsy, for `x || y` chains. -/
def jsNum (o : Option Nat) : Option Nat :=
  o.bind (fun n => if n = 0 then none else some n)

/-- `a || b || 0` on optional JS numbers. -/
def jsOrNat (a b : Option Nat) : Nat :=
  (match jsNum a with
   | some n => some n
   | none => jsNum b).getD 0

/-- Whether `pat` is a prefix of `hay` (character lists). -/
def isPrefixChars : List Char → List Char → Bool
  | [], _ => true
  | _ :: _, [] => false
  | a :: as, b :: bs => a == b && isPrefixChars as bs

/-- Substring containment on character lists, for JS `String.includes`. -/
def containsChars (hay pat : List Char) : Bool :=
  match hay with
  | [] => pat.isEmpty
  | _ :: t => isPrefixChars pat hay || containsChars t pat

/-- JS `hay.includes(pat)`. -/
def strIncludes (hay pat : String) : Bool :=
  containsChars hay.data pat.data

namespace SaferRelay

/-- A JS `Date` value, abstracted to the projections the handler reads:
epoch milliseconds, calendar year and month. -/
structure SRDate where
  epochMs : Int
  year : Int
  month : Int
  deriving DecidableEq

/-- The `carrier` object of a SAFER snapshot response (`saferData.carrier`);
every field may be absent. -/
structure SRCarrier where
  legal_name : Option String
  dba_name : Option String
  usdot_number : Option String
  usdot_status : Option String
  operating_authority : Option String
  date_of_authority : Option SRDate
  mcs_150_form_date : Option SRDate
  safety_rating : Option String
  double_brokerage_indicator : Option Bool
  insurance_verified : Option Bool
  insurance_status : Option String
  principal_address : Option String
  phone_number : Option String
  deriving DecidableEq

/-- The all-absent carrier object, for `saferData.carrier || {}`. -/
def SRCarrier.empty : SRCarrier :=
  ⟨none, none, none, none, none, none, none, none, none, none, none, none, none⟩

/-- The `crashes` object of a SAFER response. -/
structure SRCrashes where
  fatal_count : Option Nat
  fatalities : Option Nat
  injury_count : Option Nat
  injury_crashes : Option Nat
  deriving DecidableEq

/-- The all-absent crashes object, for `saferData.crashes || {}`. -/
def SRCrashes.empty : SRCrashes := ⟨none, none, none, none⟩

/-- The `inspections` object of a SAFER response. -/
structure SRInspections where
  vehicle_inspections : Option Nat
  vehicle_oos : Option Nat
  driver_inspections : Option Nat
  driver_oos : Option Nat
  deriving DecidableEq

/-- The all-absent inspections object, for `saferData.inspections || {}`. -/
def SRInspections.empty : SRInspections := ⟨none, none, none, none⟩

/-- A violation line item; only `description` is read. -/
structure SRViolation where
  description : Option String
  deriving DecidableEq

/-- The parsed SAFER snapshot JSON consumed by the relay handler. -/
structure SaferData where
  carrier : Option SRCarrier
  crashes : Option SRCrashes
  inspections : Option SRInspections
  violations : Option (List SRViolation)
  deriving DecidableEq

/-- `calculateAuthorityAge` (safer-relay.js lines 191-197): whole months of
30 days between `now` and the authority date, `0` when the date is absent. -/
def calculateAuthorityAge (dateOfAuthority : Option SRDate) (now : SRDate) : Nat :=
  match dateOfAuthority with
  | none => 0
  | some d => (now.epochMs - d.epochMs).natAbs / (1000 * 60 * 60 * 24 * 30)

/-- `isCurrentMCS150` (safer-relay.js lines 199-205). -/
def isCurrentMCS150 (mcsFormDate : Option SRDate) (now : SRDate) : Bool :=
  match mcsFormDate with
  | none => false
  | some d => (now.year - d.year) * 12 + (now.month - d.month) < 24

/-- `countDrugAlcoholViolations` (safer-relay.js lines 207-213). -/
def countDrugAlcoholViolations (violations : Option (List SRViolation)) : Nat :=
  match violations with
  | none => 0
  | some l =>
    (l.filter (fun v =>
      match v.description with
      | none => false
      | some d => strIncludes d.toLower "drug" || strIncludes d.toLower "alcohol")).length

/-- `calculateFMCSAScore` (safer-relay.js lines 215-222). -/
def calculateFMCSAScore (status authority : String) (age : Nat) (mcsCurrent : Bool) : Int :=
  (if status = "Active" then 25 else 0)
  + (if authority = "Active" then 35 else 0)
  + (if 24 ≤ age then 25 else 0)
  + (if mcsCurrent then 15 else 0)

/-- `calculateSafetyScore` (safer-relay.js lines 224-231). -/
def calculateSafetyScore (rating : String) (drugAlcohol fatal injury : Nat) : Int :=
  min 100
    ((if rating = "Satisfactory" then 35 else 0)
     + (if drugAlcohol = 0 then 30 else 0)
     + (if fatal = 0 then 20 else 0)
     + max 0 (8 - (injury : Int) * 2))

/-- `calculateOOSScore` (safer-relay.js lines 233-239). -/
def calculateOOSScore (vehicleRate vehicleAvg driverRate driverAvg : Rat)
    (inspections : Nat) : Int :=
  min 100
    ((if vehicleRate ≤ vehicleAvg * 0.8 then 45 else 0)
     + (if driverRate ≤ driverAvg * 1.0 then 25 else 0)
     + (if 15 ≤ inspections then 20 else 0))

/-- `calculateBusinessLegitimacy` (safer-relay.js lines 241-248). -/
def calculateBusinessLegitimacy (carrier : SRCarrier) : Int :=
  min 100
    (50 + (if jsTruthy carrier.legal_name then 10 else 0)
     + (if jsTruthy carrier.dba_name then 10 else 0)
     + (if jsTruthy carrier.principal_address then 10 else 0)
     + (if jsTruthy carrier.phone_number then 5 else 0))

/-- `getGrade` (safer-relay.js lines 250-256). -/
def getGrade (score : Rat) : String :=
  if 90 ≤ score then "A"
  else if 80 ≤ score then "B"
  else if 70 ≤ score then "C"
  else if 60 ≤ score then "D"
  else "F"

/-- The national average constant of safer-relay.js line 63. -/
def vehicleOOSNationalAvg : Rat := 0.2226

/-- The national average constant of safer-relay.js line 68. -/
def driverOOSNationalAvg : Rat := 0.0667

/-- OOS rate guarded against division by zero
(safer-relay.js lines 62 and 67). -/
def oosRate (oos inspections : Nat) : Rat :=
  if 0 < inspections then (oos : Rat) / (inspections : Rat) else 0

/-- Outcome of the single upstream `fetch` in safer-relay.js: the fetch (or a
later `await`) threw, or it returned a response with an `ok` flag whose body
then either failed to parse as JSON or parsed to a `SaferData`. -/
inductive SRUpstream where
  | fetchError (msg : String)
  | response (ok : Bool) (body : Except String SaferData)

/-- The JSON object written by the safer-relay handler, one optional field per
JSON key; `status` is the HTTP status code passed to `res.status`. -/
structure SRResponse where
  status : Nat
  error : Option String := none
  error_message : Option String := none
  carrier_name : Option String := none
  dba : Option String := none
  mc_number : Option String := none
  usdot_number : Option String := none
  usdot_status : Option String := none
  operating_authority : Option String := none
  authority_age_months : Option Nat := none
  mcs_150_current : Option Bool := none
  safety_rating : Option String := none
  drug_alcohol_violations : Option Nat := none
  fatal_crashes : Option Nat := none
  injury_crashes : Option Nat := none
  double_brokerage_indicator : Option Bool := none
  vehicle_inspections_count : Option Nat := none
  vehicle_oos_count : Option Nat := none
  vehicle_oos_rate : Option Rat := none
  driver_inspections_count : Option Nat := none
  driver_oos_count : Option Nat := none
  driver_oos_rate : Option Rat := none
  insurance_verified : Option Bool := none
  insurance_status : Option String := none
  total_score : Option Rat := none
  grade : Option String := none
  fmcsa_authority_score : Option Int := none
  double_brokerage_score : Option Int := none
  safety_compliance_score : Option Int := none
  inspections_oos_score : Option Int := none
  insurance_verification_score : Option Int := none
  business_legitimacy_score : Option Int := none
  auto_reject : Option String := none
  auto_reject_reasons : Option String := none
  checked_at : Option String := none
  deriving DecidableEq

/-- The catch-branch 500 response of safer-relay.js lines 178-187. -/
def catchResponse (msg : String) : SRResponse :=
  { status := 500,
    error := some "Internal server error",
    error_message := some msg,
    carrier_name := some "N/A",
    total_score := some 0,
    grade := some "F",
    auto_reject := some "true",
    auto_reject_reasons := some ("Server error: " ++ msg) }

/-- The 200 response built from a parsed `SaferData` (safer-relay.js lines
37-174). `now` abstracts `new Date()` and `nowIso` its ISO rendering. -/
def successResponse (mc_number usdot_number : Option String) (saferData : SaferData)
    (now : SRDate) (nowIso : String) : SRResponse :=
  let carrier := saferData.carrier.getD SRCarrier.empty
  let crashes := saferData.crashes.getD SRCrashes.empty
  let inspections := saferData.inspections.getD SRInspections.empty
  let usdotStatus := jsOrStr carrier.usdot_status "Unknown"
  let operatingAuthority := jsOrStr carrier.operating_authority "Unknown"
  let authorityAge := calculateAuthorityAge carrier.date_of_authority now
  let mcsCurrent := if carrier.mcs_150_form_date.isSome
                    then isCurrentMCS150 carrier.mcs_150_form_date now else false
  let safetyRating := jsOrStr carrier.safety_rating "Unknown"
  let drugAlcoholViolations := countDrugAlcoholViolations saferData.violations
  let fatalCrashes := jsOrNat crashes.fatal_count crashes.fatalities
  let injuryCrashes := jsOrNat crashes.injury_count crashes.injury_crashes
  let doubleBrokerageIndicator := carrier.double_brokerage_indicator.getD false
  let vehicleInspections := inspections.vehicle_inspections.getD 0
  let vehicleOOS := inspections.vehicle_oos.getD 0
  let vehicleOOSRate := oosRate vehicleOOS vehicleInspections
  let driverInspections := inspections.driver_inspections.getD 0
  let driverOOS := inspections.driver_oos.getD 0
  let driverOOSRate := oosRate driverOOS driverInspections
  let insuranceVerified := carrier.insurance_verified.getD false
  let insuranceStatus := jsOrStr carrier.insurance_status "Unknown"
  let businessLegitimacyScore := calculateBusinessLegitimacy carrier
  let fmcsaScore := calculateFMCSAScore usdotStatus operatingAuthority authorityAge mcsCurrent
  let dbScore : Int := if doubleBrokerageIndicator then 0 else 100
  let safetyScore := calculateSafetyScore safetyRating drugAlcoholViolations fatalCrashes injuryCrashes
  let oosScore := calculateOOSScore vehicleOOSRate vehicleOOSNationalAvg
                    driverOOSRate driverOOSNationalAvg vehicleInspections
  let insScore : Int := if insuranceVerified then 100 else 50
  let totalScore : Rat :=
    ((round (((fmcsaScore : Rat) * 0.20 + (dbScore : Rat) * 0.25
      + (safetyScore : Rat) * 0.20 + (oosScore : Rat) * 0.15
      + (insScore : Rat) * 0.15 + (businessLegitimacyScore : Rat) * 0.05) * 100) : Int) : Rat)
    / 100
  let grade := getGrade totalScore
  let autoRejectReasons : List String :=
    (if 0 < fatalCrashes then ["Fatal crash(es) on record"] else [])
    ++ (if 0 < drugAlcoholViolations then ["Drug/alcohol violation(s)"] else [])
    ++ (if doubleBrokerageIndicator then ["Double brokerage risk detected"] else [])
    ++ (if insuranceVerified = false ∨ insuranceStatus ≠ "Active"
        then ["Insurance not verified or inactive"] else [])
    ++ (if safetyRating = "Unsatisfactory" then ["Unsatisfactory safety rating"] else [])
    ++ (if totalScore < 60 then ["Score too low: " ++ toString totalScore] else [])
  let autoReject := if 0 < autoRejectReasons.length then "true" else "false"
  { status := 200,
    carrier_name := some (jsOrStr carrier.legal_name "Unknown"),
    dba := some (jsOrStr carrier.dba_name "N/A"),
    mc_number := mc_number,
    usdot_number := jsOrOpt usdot_number carrier.usdot_number,
    usdot_status := some usdotStatus,
    operating_authority := some operatingAuthority,
    authority_age_months := some authorityAge,
    mcs_150_current := some mcsCurrent,
    safety_rating := some safetyRating,
    drug_alcohol_violations := some drugAlcoholViolations,
    fatal_crashes := some fatalCrashes,
    injury_crashes := some injuryCrashes,
    double_brokerage_indicator := some doubleBrokerageIndicator,
    vehicle_inspections_count := some vehicleInspections,
    vehicle_oos_count := some vehicleOOS,
    vehicle_oos_rate := some (((round (vehicleOOSRate * 10000) : Int) : Rat) / 10000),
    driver_inspections_count := some driverInspections,
    driver_oos_count := some driverOOS,
    driver_oos_rate := some (((round (driverOOSRate * 10000) : Int) : Rat) / 10000),
    insurance_verified := some insuranceVerified,
    insurance_status := some insuranceStatus,
    total_score := some totalScore,
    grade := some grade,
    fmcsa_authority_score := some fmcsaScore,
    double_brokerage_score := some dbScore,
    safety_compliance_score := some safetyScore,
    inspections_oos_score := some oosScore,
    insurance_verification_score := some insScore,
    business_legitimacy_score := some businessLegitimacyScore,
    auto_reject := some autoReject,
    auto_reject_reasons := some (if 0 < autoRejectReasons.length
      then String.intercalate " | " autoRejectReasons
      else "Carrier meets compliance requirements"),
    checked_at := some nowIso }

/-- The safer-relay handler (safer-relay.js lines 4-188): method gate, missing
identifier gate, then the upstream outcome dispatch (`!res.ok` → 404, a
thrown error → the catch-branch 500, otherwise the 200 payload). -/
def handler (method : String) (mc_number usdot_number : Option String)
    (upstream : SRUpstream) (now : SRDate) (nowIso : String) : SRResponse :=
  if method ≠ "POST" then
    { status := 405, error := some "Method not allowed" }
  else if ¬(jsTruthy mc_number || jsTruthy usdot_number) then
    { status := 400, error := some "MC or USDOT number required" }
  else
    match upstream with
    | .fetchError msg => catchResponse msg
    | .response false _ =>
      { status := 404,
        error := some "Carrier not found",
        carrier_name := some "N/A",
        total_score := some 0,
        grade := some "F",
        auto_reject := some "true",
        auto_reject_reasons := some "Carrier not found in SAFER database" }
    | .response true (.error msg) => catchResponse msg
    | .response true (.ok saferData) =>
      successResponse mc_number usdot_number saferData now nowIso

end SaferRelay

namespace CarrierScorecard

/-- A raw crash record line item returned by the provider. The handler reads
only `fatalities`; `report_number` is carried so that deduplication claims can
be stated about raw record lists. -/
structure CSCrashRecord where
  report_number : String
  fatalities : Nat
  deriving DecidableEq

/-- The four parsed upstream bodies the carrier-scorecard handler joins
(`snapshot`, `inspections`, `violations`, `crashes`); each `records` array may
be absent (`x.records || []`). Inspection and violation records are only ever
counted, so their entries are opaque. -/
structure CSFetched where
  carrier_status : Option String
  legal_name : Option String
  dba_name : Option String
  inspections_records : Option (List Unit)
  violations_records : Option (List Unit)
  crash_records : Option (List CSCrashRecord)
  deriving DecidableEq

/-- Outcome of the `Promise.all` fan-out in the carrier-scorecard handler: a
rejected fetch or JSON parse throws into the catch branch; a fulfilled join
yields the four parsed bodies. A non-2xx response is not distinguished — the
code never inspects `res.ok` and parses whatever body came back. -/
inductive CSUpstream where
  | fetchError (msg : String)
  | ok (d : CSFetched)
  deriving DecidableEq

/-- The JSON object written by the carrier-scorecard handler, one optional
field per JSON key; `status` is the HTTP status code. -/
structure CSResponse where
  status : Nat
  error : Option String := none
  error_flag : Option Bool := none
  error_message : Option String := none
  carrier_name : Option String := none
  dba : Option String := none
  mc_number : Option String := none
  usdot_number : Option String := none
  carrier_status : Option String := none
  total_score : Option Int := none
  grade : Option String := none
  inspections_count : Option Nat := none
  violations_count : Option Nat := none
  crash_count : Option Nat := none
  fatal_crashes : Option Nat := none
  auto_reject : Option String := none
  auto_reject_reasons : Option String := none
  checked_at : Option String := none
  deriving DecidableEq

/-- The carrier-scorecard HTTP handler (carrier-scorecard.js lines 221-315):
method gate, missing identifier gate, then either the catch-branch 500 or the
200 payload computed from record counts. -/
def csHandler (method : String) (mc_number usdot_number : Option String)
    (upstream : CSUpstream) (nowIso : String) : CSResponse :=
  if method ≠ "POST" then
    { status := 405, error := some "Method not allowed" }
  else if ¬(jsTruthy mc_number || jsTruthy usdot_number) then
    { status := 400, error := some "MC or USDOT number required" }
  else
    let carrier_id := jsOrOpt usdot_number mc_number
    match upstream with
    | .fetchError msg =>
      { status := 500,
        error_flag := some true,
        error_message := some msg,
        mc_number := mc_number,
        usdot_number := carrier_id,
        total_score := some 0,
        grade := some "F",
        auto_reject := some "true",
        auto_reject_reasons := some ("API Error: " ++ msg),
        checked_at := some nowIso }
    | .ok d =>
      let crashRecords := d.crash_records.getD []
      let crash_count := crashRecords.length
      let fatal_crashes := (crashRecords.filter (fun c => 0 < c.fatalities)).length
      let violations_count := (d.violations_records.getD []).length
      let inspection_count := (d.inspections_records.getD []).length
      let score : Int := 100 - (violations_count : Int) * 2 - (inspection_count : Int)
        - (crash_count : Int) * 5 - (fatal_crashes : Int) * 15
      let total_score : Int := max 0 (min 100 score)
      let grade :=
        if 95 ≤ total_score then "A+"
        else if 90 ≤ total_score then "A"
        else if 85 ≤ total_score then "B+"
        else if 80 ≤ total_score then "B"
        else if 75 ≤ total_score then "C+"
        else if 70 ≤ total_score then "C"
        else if 65 ≤ total_score then "D"
        else "F"
      let carrierStatus := jsOrStr d.carrier_status "Unknown"
      let reasons : List String :=
        (if carrierStatus ≠ "Active" then ["Carrier status: " ++ carrierStatus] else [])
        ++ (if 0 < fatal_crashes then ["Fatal crashes: " ++ toString fatal_crashes] else [])
        ++ (if total_score < 60 then ["Score too low: " ++ toString total_score] else [])
      let autoReject := if 0 < reasons.length then "true" else "false"
      { status := 200,
        carrier_name := some (jsOrStr d.legal_name "N/A"),
        dba := some (jsOrStr d.dba_name "N/A"),
        mc_number := mc_number,
        usdot_number := carrier_id,
        carrier_status := some carrierStatus,
        total_score := some total_score,
        grade := some grade,
        inspections_count := some inspection_count,
        violations_count := some violations_count,
        crash_count := some crash_count,
        fatal_crashes := some fatal_crashes,
        auto_reject := some autoReject,
        auto_reject_reasons := some (jsOrStr (some (String.intercalate " | " reasons)) "None"),
        checked_at := some nowIso }

/-! Spec-side formulas, written from the specification's wording so they can
be compared against the definitions extracted from the source. -/

/-- The specification's Double-Brokerage formula: subtract penalties from 100
(−30 scope mismatch, −40 undisclosed reposting, −20 contact mismatch,
−10 third-party insurance holder), floored at 0. -/
def specDoubleBrokerageScore (data : CarrierData) : Int :=
  max 0 (100 - (if data.authority_scope_mismatch then 30 else 0)
    - (if data.load_reposting_observed ∧ data.reposting_disclosed = false then 40 else 0)
    - (if data.contact_mismatch then 20 else 0)
    - (if data.insurance_holder_is_third_party then 10 else 0))

/-- The specification's Insurance Verification formula: from 0, +40 BIPD
filing active, +30 BIPD limit ≥ $1,000,000, +20 cargo verified, +10 when the
callback status is "Confirmed" or "Verified". -/
def specInsuranceScore (data : CarrierData) : Nat :=
  (if data.bipd_filing_active then 40 else 0)
  + (if 1000000 ≤ data.bipd_limit_usd then 30 else 0)
  + (if data.cargo_insurance_verified then 20 else 0)
  + (if data.insurer_callback_status = "Confirmed"
        ∨ data.insurer_callback_status = "Verified" then 10 else 0)

/-- The specification's deduplicated crash count: one event per distinct
report number. -/
def specDedupCrashCount (recs : List CSCrashRecord) : Nat :=
  ((recs.map (fun r => r.report_number)).dedup).length

/-- The specification's deduplicated fatal-crash count: a deduplicated event
is fatal when any line item of its report-number group has fatalities. -/
def specDedupFatalCount (recs : List CSCrashRecord) : Nat :=
  (((recs.map (fun r => r.report_number)).dedup).filter
    (fun k => recs.any (fun r => r.report_number == k && 0 < r.fatalities))).length

end CarrierScorecard

namespace CarrierScorecard

lemma authorityAge_score_le (data : CarrierData) :
    (calculateAuthorityAge data).score ≤ 100 := by
  simp only [calculateAuthorityAge]
  split_ifs <;> omega

lemma doubleBrokerage_score_le (data : CarrierData) :
    (calculateDoubleBrokerageRisk data).score ≤ 100 := by
  simp only [calculateDoubleBrokerageRisk]
  split_ifs <;> omega

lemma safetyCompliance_score_le (data : CarrierData) :
    (calculateSafetyCompliance data).score ≤ 100 := by
  simp only [calculateSafetyCompliance]
  split_ifs <;> omega

lemma inspectionsOOS_score_le (data : CarrierData) :
    (calculateInspectionsOOS data).score ≤ 100 := by
  simp only [calculateInspectionsOOS]
  split_ifs <;> omega

lemma insuranceVerification_score_le (data : CarrierData) :
    (calculateInsuranceVerification data).score ≤ 100 := by
  simp only [calculateInsuranceVerification]
  split_ifs <;> omega

lemma businessLegitimacy_score_le (data : CarrierData) :
    (calculateBusinessLegitimacy data).score ≤ 100 := by
  simp only [calculateBusinessLegitimacy]
  split_ifs <;> omega

lemma round_bounds {q : Rat} (h0 : 0 ≤ q) (h1 : q ≤ 100) :
    0 ≤ round q ∧ round q ≤ 100 := by
  rw [round_eq]
  constructor
  · have h : ((0 : Int) : Rat) ≤ q + 1 / 2 := by push_cast; linarith
    exact Int.le_floor.mpr h
  · have h : q + 1 / 2 < ((101 : Int) : Rat) := by push_cast; linarith
    have := Int.floor_lt.mpr h
    omega

lemma totalScore_bounds (data : CarrierData) (now : String) :
    0 ≤ (calculateScorecard data now).score ∧ (calculateScorecard data now).score ≤ 100 := by
  have h1 := authorityAge_score_le data
  have h2 := doubleBrokerage_score_le data
  have h3 := safetyCompliance_score_le data
  have h4 := inspectionsOOS_score_le data
  have h5 := insuranceVerification_score_le data
  have h6 := businessLegitimacy_score_le data
  simp only [calculateScorecard]
  apply round_bounds
  · positivity
  · have c1 : ((calculateAuthorityAge data).score : Rat) ≤ 100 := by exact_mod_cast h1
    have c2 : ((calculateDoubleBrokerageRisk data).score : Rat) ≤ 100 := by exact_mod_cast h2
    have c3 : ((calculateSafetyCompliance data).score : Rat) ≤ 100 := by exact_mod_cast h3
    have c4 : ((calculateInspectionsOOS data).score : Rat) ≤ 100 := by exact_mod_cast h4
    have c5 : ((calculateInsuranceVerification data).score : Rat) ≤ 100 := by exact_mod_cast h5
    have c6 : ((calculateBusinessLegitimacy data).score : Rat) ≤ 100 := by exact_mod_cast h6
    have e : (0.20 : Rat) + 0.25 + 0.20 + 0.15 + 0.15 + 0.05 = 1 := by norm_num
    nlinarith [c1, c2, c3, c4, c5, c6]

/-- C1: for every carrier profile each of the six category sub-scores is at
most 100 (they are naturals, hence also non-negative), and the total weighted
score returned by `calculateScorecard` lies in [0, 100]. -/
theorem subscores_and_total_in_range (data : CarrierData) (now : String) :
    (calculateAuthorityAge data).score ≤ 100
    ∧ (calculateDoubleBrokerageRisk data).score ≤ 100
    ∧ (calculateSafetyCompliance data).score ≤ 100
    ∧ (calculateInspectionsOOS data).score ≤ 100
    ∧ (calculateInsuranceVerification data).score ≤ 100
    ∧ (calculateBusinessLegitimacy data).score ≤ 100
    ∧ 0 ≤ (calculateScorecard data now).score
    ∧ (calculateScorecard data now).score ≤ 100 :=
  ⟨authorityAge_score_le data, doubleBrokerage_score_le data,
   safetyCompliance_score_le data, inspectionsOOS_score_le data,
   insuranceVerification_score_le data, businessLegitimacy_score_le data,
   (totalScore_bounds data now).1, (totalScore_bounds data now).2⟩

/-- C9: the scorer is deterministic — two calls on the identical profile with
different timestamps agree on the total score, every category sub-score, the
reject-trigger sequence, and the recommendation; only `checkedAt` carries the
timestamp. -/
theorem scorer_deterministic (data : CarrierData) (t1 t2 : String) :
    (calculateScorecard data t1).score = (calculateScorecard data t2).score
    ∧ (calculateScorecard data t1).fmcsaAuthorityAge
      = (calculateScorecard data t2).fmcsaAuthorityAge
    ∧ (calculateScorecard data t1).doubleBrokerageRisk
      = (calculateScorecard data t2).doubleBrokerageRisk
    ∧ (calculateScorecard data t1).safetyCompliance
      = (calculateScorecard data t2).safetyCompliance
    ∧ (calculateScorecard data t1).inspectionsOOS
      = (calculateScorecard data t2).inspectionsOOS
    ∧ (calculateScorecard data t1).insuranceVerification
      = (calculateScorecard data t2).insuranceVerification
    ∧ (calculateScorecard data t1).businessLegitimacy
      = (calculateScorecard data t2).businessLegitimacy
    ∧ (calculateScorecard data t1).rejectTriggers
      = (calculateScorecard data t2).rejectTriggers
    ∧ (calculateScorecard data t1).recommendation
      = (calculateScorecard data t2).recommendation
    ∧ (calculateScorecard data t1).riskLevel = (calculateScorecard data t2).riskLevel :=
  ⟨rfl, rfl, rfl, rfl, rfl, rfl, rfl, rfl, rfl, rfl⟩

/-- C3: with no reject trigger fired the recommendation is a pure threshold
function of the total score: ≥ 86 Approved Low Risk, 75–85 Conditional
Verification Required / Moderate Risk, below 75 Reject / High Risk. -/
theorem recommendation_thresholds (score : Int) :
    (86 ≤ score → getRecommendation score [] = ⟨"Approved Low Risk", "Low Risk"⟩)
    ∧ (75 ≤ score → score < 86 →
        getRecommendation score []
          = ⟨"Conditional Verification Required", "Moderate Risk"⟩)
    ∧ (score < 75 →
        getRecommendation score [] = ⟨"Reject / Do Not Use", "High Risk"⟩) := by
  refine ⟨fun h => ?_, fun h1 h2 => ?_, fun h => ?_⟩ <;>
    (simp only [getRecommendation, List.length_nil]
     split_ifs <;> first | rfl | omega)

/-- C2: the reject-trigger list contains the trigger for each of the seven
auto-reject conditions exactly when that condition holds on the profile, every
trigger in the list is one of those seven, and any non-empty trigger list
forces the recommendation "Reject / Do Not Use" with risk level
"High Risk (Auto-Reject)" whatever the score. -/
theorem reject_triggers_exact (data : CarrierData) (score : Int) :
    ((⟨"SAFETY_FATAL_CRASH", "Fatal crash with carrier fault"⟩ : Trigger)
        ∈ checkRejectTriggers data
      ↔ 0 < data.fatal_crashes ∧ data.fatal_crash_at_fault = true)
    ∧ ((⟨"SAFETY_DRUG_ALCOHOL", "Drug/Alcohol violation present"⟩ : Trigger)
        ∈ checkRejectTriggers data
      ↔ 0 < data.drug_alcohol_violations)
    ∧ ((⟨"SAFETY_RATING_UNSAT", "FMCSA safety rating Unsatisfactory"⟩ : Trigger)
        ∈ checkRejectTriggers data
      ↔ data.safety_rating = "Unsatisfactory")
    ∧ ((⟨"DB_REFUSED_INSURER_CALLBACK", "Refused insurer callback"⟩ : Trigger)
        ∈ checkRejectTriggers data
      ↔ data.insurer_callback_status = "Refused")
    ∧ ((⟨"DB_OUTSIDE_AUTHORITY_SCOPE", "Operating outside authority scope"⟩ : Trigger)
        ∈ checkRejectTriggers data
      ↔ data.authority_scope_mismatch = true)
    ∧ ((⟨"DB_THIRD_PARTY_INS_HOLDER", "Third party listed as insurance holder"⟩ : Trigger)
        ∈ checkRejectTriggers data
      ↔ data.insurance_holder_is_third_party = true)
    ∧ ((⟨"DB_REPOSTING_NO_DISCLOSURE", "Load reposting without disclosure"⟩ : Trigger)
        ∈ checkRejectTriggers data
      ↔ data.load_reposting_observed = true ∧ data.reposting_disclosed = false)
    ∧ (∀ t ∈ checkRejectTriggers data,
        t.id = "SAFETY_FATAL_CRASH" ∨ t.id = "SAFETY_DRUG_ALCOHOL"
        ∨ t.id = "SAFETY_RATING_UNSAT" ∨ t.id = "DB_REFUSED_INSURER_CALLBACK"
        ∨ t.id = "DB_OUTSIDE_AUTHORITY_SCOPE" ∨ t.id = "DB_THIRD_PARTY_INS_HOLDER"
        ∨ t.id = "DB_REPOSTING_NO_DISCLOSURE")
    ∧ (checkRejectTriggers data ≠ [] →
        getRecommendation score (checkRejectTriggers data)
          = ⟨"Reject / Do Not Use", "High Risk (Auto-Reject)"⟩) := by
  refine ⟨?_, ?_, ?_, ?_, ?_, ?_, ?_, ?_, ?_⟩
  case _ => simp [checkRejectTriggers]
  case _ => simp [checkRejectTriggers]
  case _ => simp [checkRejectTriggers]
  case _ => simp [checkRejectTriggers]
  case _ => simp [checkRejectTriggers]
  case _ => simp [checkRejectTriggers]
  case _ => simp [checkRejectTriggers]
  case _ =>
    intro t ht
    simp only [checkRejectTriggers, List.mem_append] at ht
    rcases ht with ((((((h | h) | h) | h) | h) | h) | h) <;>
      (split_ifs at h <;> simp_all)
  case _ =>
    intro hne
    simp only [getRecommendation, if_pos (List.length_pos.mpr hne)]

/-- Witness for C2 on a profile whose only risk flag is a third-party
insurance holder. -/
theorem reject_triggers_exact_witness :
    ((⟨"DB_THIRD_PARTY_INS_HOLDER", "Third party listed as insurance holder"⟩ : Trigger)
      ∈ checkRejectTriggers
        { usdot_status := "Active", operating_authority_status := "Active",
          authority_age_months := 48, mcs150_biennial_update := "Current",
          safety_rating := "Satisfactory", drug_alcohol_violations := 0,
          fatal_crashes := 0, injury_crashes := 0, fatal_crash_at_fault := false,
          authority_scope_mismatch := false, contact_mismatch := false,
          email_type := "DomainMatch", insurance_holder_is_third_party := true,
          insurer_callback_status := "Verified", load_reposting_observed := false,
          reposting_disclosed := false, vehicle_oos_rate_pct := 0,
          driver_oos_rate_pct := 0, national_avg_vehicle := 20,
          national_avg_driver := 5, total_inspections_24mo := 20,
          bipd_filing_active := true, bipd_limit_usd := 1000000,
          cargo_insurance_verified := true, website_active_12mo := true,
          facebook_active_12mo := true, address_consistent_with_fmcsa := true,
          growth_trend_pct := 30 })
    ∧ getRecommendation 100 (checkRejectTriggers
        { usdot_status := "Active", operating_authority_status := "Active",
          authority_age_months := 48, mcs150_biennial_update := "Current",
          safety_rating := "Satisfactory", drug_alcohol_violations := 0,
          fatal_crashes := 0, injury_crashes := 0, fatal_crash_at_fault := false,
          authority_scope_mismatch := false, contact_mismatch := false,
          email_type := "DomainMatch", insurance_holder_is_third_party := true,
          insurer_callback_status := "Verified", load_reposting_observed := false,
          reposting_disclosed := false, vehicle_oos_rate_pct := 0,
          driver_oos_rate_pct := 0, national_avg_vehicle := 20,
          national_avg_driver := 5, total_inspections_24mo := 20,
          bipd_filing_active := true, bipd_limit_usd := 1000000,
          cargo_insurance_verified := true, website_active_12mo := true,
          facebook_active_12mo := true, address_consistent_with_fmcsa := true,
          growth_trend_pct := 30 })
      = ⟨"Reject / Do Not Use", "High Risk (Auto-Reject)"⟩ :=
  ⟨(reject_triggers_exact _ 100).2.2.2.2.2.1.mpr (by decide),
   (reject_triggers_exact _ 100).2.2.2.2.2.2.2.2 (by decide)⟩

/-- A profile with no double-brokerage flags but an unknown email type and a
refused insurer callback, separating the additive source formula from the
specification's subtract-from-100 formula. -/
def dbContrastData : CarrierData :=
  { usdot_status := "Active", operating_authority_status := "Active",
    authority_age_months := 48, mcs150_biennial_update := "Current",
    safety_rating := "Satisfactory", drug_alcohol_violations := 0,
    fatal_crashes := 0, injury_crashes := 0, fatal_crash_at_fault := false,
    authority_scope_mismatch := false, contact_mismatch := false,
    email_type := "Unknown", insurance_holder_is_third_party := false,
    insurer_callback_status := "Refused", load_reposting_observed := false,
    reposting_disclosed := false, vehicle_oos_rate_pct := 0,
    driver_oos_rate_pct := 0, national_avg_vehicle := 20,
    national_avg_driver := 5, total_inspections_24mo := 20,
    bipd_filing_active := true, bipd_limit_usd := 1000000,
    cargo_insurance_verified := true, website_active_12mo := true,
    facebook_active_12mo := true, address_consistent_with_fmcsa := true,
    growth_trend_pct := 30 }

/-- Counterexample to C4: on `dbContrastData` the source computes the
Double-Brokerage sub-score 66, while the claimed subtract-from-100 formula
(no penalty applies) yields 100. -/
theorem doubleBrokerage_formula_counterexample :
    (calculateDoubleBrokerageRisk dbContrastData).score = 66
    ∧ specDoubleBrokerageScore dbContrastData = 100
    ∧ ((calculateDoubleBrokerageRisk dbContrastData).score : Int)
      ≠ specDoubleBrokerageScore dbContrastData := by
  refine ⟨by decide, by decide, by decide⟩

/-- C4 amended: the Double-Brokerage sub-score is additive — 18 points for no
authority/scope mismatch, 10 for no contact mismatch, 12 for a domain-matching
email (4 for a free email), 18 for a first-party insurance holder, 22 for a
Verified insurer callback (8 when not done), and 20 for no observed load
reposting. -/
theorem doubleBrokerage_additive (data : CarrierData) :
    (calculateDoubleBrokerageRisk data).score =
      (if data.authority_scope_mismatch = true then 0 else 18)
      + (if data.contact_mismatch = true then 0 else 10)
      + (if data.email_type = "DomainMatch" then 12
         else if data.email_type = "FreeEmail" then 4 else 0)
      + (if data.insurance_holder_is_third_party = true then 0 else 18)
      + (if data.insurer_callback_status = "Verified" then 22
         else if data.insurer_callback_status = "NotDone" then 8 else 0)
      + (if data.load_reposting_observed = true then 0 else 20) := by
  cases h1 : data.authority_scope_mismatch <;>
  cases h2 : data.contact_mismatch <;>
  cases h3 : data.insurance_holder_is_third_party <;>
  cases h4 : data.load_reposting_observed <;>
    simp [calculateDoubleBrokerageRisk, h1, h2, h3, h4]

/-- A fully insured profile whose insurer callback status is "Confirmed",
separating the source's insurance formula from the specification's. -/
def insuranceContrastData : CarrierData :=
  { usdot_status := "Active", operating_authority_status := "Active",
    authority_age_months := 48, mcs150_biennial_update := "Current",
    safety_rating := "Satisfactory", drug_alcohol_violations := 0,
    fatal_crashes := 0, injury_crashes := 0, fatal_crash_at_fault := false,
    authority_scope_mismatch := false, contact_mismatch := false,
    email_type := "DomainMatch", insurance_holder_is_third_party := false,
    insurer_callback_status := "Confirmed", load_reposting_observed := false,
    reposting_disclosed := false, vehicle_oos_rate_pct := 0,
    driver_oos_rate_pct := 0, national_avg_vehicle := 20,
    national_avg_driver := 5, total_inspections_24mo := 20,
    bipd_filing_active := true, bipd_limit_usd := 1000000,
    cargo_insurance_verified := true, website_active_12mo := true,
    facebook_active_12mo := true, address_consistent_with_fmcsa := true,
    growth_trend_pct := 30 }

/-- Counterexample to C5: on `insuranceContrastData` the source computes
40 + 25 + 15 + 0 = 80 (a "Confirmed" callback earns nothing), while the
claimed formula yields 40 + 30 + 20 + 10 = 100. -/
theorem insurance_formula_counterexample :
    (calculateInsuranceVerification insuranceContrastData).score = 80
    ∧ specInsuranceScore insuranceContrastData = 100
    ∧ (calculateInsuranceVerification insuranceContrastData).score
      ≠ specInsuranceScore insuranceContrastData := by
  refine ⟨by decide, by decide, by decide⟩

/-- C5 amended: the Insurance Verification sub-score is +40 for an active BIPD
filing, +25 for a BIPD limit ≥ $1,000,000 (else +15 for ≥ $750,000, else +5),
+15 for verified cargo insurance (else +5), and +20 only for a "Verified"
insurer callback (+5 when "NotDone"; "Confirmed" earns nothing). -/
theorem insurance_additive (data : CarrierData) :
    (calculateInsuranceVerification data).score =
      (if data.bipd_filing_active = true then 40 else 0)
      + (if 1000000 ≤ data.bipd_limit_usd then 25
         else if 750000 ≤ data.bipd_limit_usd then 15 else 5)
      + (if data.cargo_insurance_verified = true then 15 else 5)
      + (if data.insurer_callback_status = "Verified" then 20
         else if data.insurer_callback_status = "NotDone" then 5 else 0) := by
  cases h1 : data.bipd_filing_active <;>
  cases h2 : data.cargo_insurance_verified <;>
    simp [calculateInsuranceVerification, h1, h2]

/-- The recommendation text is the threshold function applied to the computed
total score and triggers. -/
lemma scorecard_recommendation_eq (data : CarrierData) (now : String) :
    (calculateScorecard data now).recommendation
      = (getRecommendation (calculateScorecard data now).score
          (checkRejectTriggers data)).text := rfl

/-- C7: a profile that is perfect in every category — active USDOT and
operating authority, authority at least 36 months old, current MCS-150,
Satisfactory rating, zero violations and crashes, OOS rates 0 against
non-negative national averages, at least 15 inspections, full insurance with
a Verified callback, all business signals positive, and no risk flags —
scores exactly 100 and is recommended "Approved Low Risk". -/
theorem perfect_profile_scores_100 (data : CarrierData) (now : String)
    (h1 : data.usdot_status = "Active")
    (h2 : data.operating_authority_status = "Active")
    (h3 : 36 ≤ data.authority_age_months)
    (h4 : data.mcs150_biennial_update = "Current")
    (h5 : data.safety_rating = "Satisfactory")
    (h6 : data.drug_alcohol_violations = 0)
    (h7 : data.fatal_crashes = 0)
    (h8 : data.injury_crashes = 0)
    (h9 : data.authority_scope_mismatch = false)
    (h10 : data.contact_mismatch = false)
    (h11 : data.email_type = "DomainMatch")
    (h12 : data.insurance_holder_is_third_party = false)
    (h13 : data.insurer_callback_status = "Verified")
    (h14 : data.load_reposting_observed = false)
    (h15 : data.vehicle_oos_rate_pct = 0)
    (h16 : data.driver_oos_rate_pct = 0)
    (h17 : 0 ≤ data.national_avg_vehicle)
    (h18 : 0 ≤ data.national_avg_driver)
    (h19 : 15 ≤ data.total_inspections_24mo)
    (h20 : data.bipd_filing_active = true)
    (h21 : 1000000 ≤ data.bipd_limit_usd)
    (h22 : data.cargo_insurance_verified = true)
    (h23 : data.website_active_12mo = true)
    (h24 : data.facebook_active_12mo = true)
    (h25 : data.address_consistent_with_fmcsa = true)
    (h26 : 30 ≤ data.growth_trend_pct) :
    (calculateScorecard data now).score = 100
    ∧ (calculateScorecard data now).recommendation = "Approved Low Risk" := by
  have e1 : (calculateAuthorityAge data).score = 100 := by
    simp [calculateAuthorityAge, h1, h2, h3, h4]
  have e2 : (calculateDoubleBrokerageRisk data).score = 100 := by
    simp [calculateDoubleBrokerageRisk, h9, h10, h11, h12, h13, h14]
  have e3 : (calculateSafetyCompliance data).score = 100 := by
    simp [calculateSafetyCompliance, h5, h6, h7, h8]
  have hv : data.vehicle_oos_rate_pct ≤ data.national_avg_vehicle * 0.8 := by
    rw [h15]
    have := mul_nonneg h17 (by norm_num : (0 : Rat) ≤ 0.8)
    linarith
  have hd : data.driver_oos_rate_pct ≤ data.national_avg_driver * 0.8 := by
    rw [h16]
    have := mul_nonneg h18 (by norm_num : (0 : Rat) ≤ 0.8)
    linarith
  have e4 : (calculateInspectionsOOS data).score = 100 := by
    simp [calculateInspectionsOOS, hv, hd, h19]
  have e5 : (calculateInsuranceVerification data).score = 100 := by
    simp [calculateInsuranceVerification, h13, h20, h21, h22]
  have e6 : (calculateBusinessLegitimacy data).score = 100 := by
    simp [calculateBusinessLegitimacy, h23, h24, h25, h26]
  have ht : checkRejectTriggers data = [] := by
    simp [checkRejectTriggers, h5, h6, h7, h9, h12, h13, h14]
  have hscore : (calculateScorecard data now).score = 100 := by
    simp only [calculateScorecard, e1, e2, e3, e4, e5, e6]
    norm_num [round_eq]
  refine ⟨hscore, ?_⟩
  rw [scorecard_recommendation_eq, hscore, ht]
  rfl

/-- A concrete perfect profile. -/
def perfectData : CarrierData :=
  { usdot_status := "Active", operating_authority_status := "Active",
    authority_age_months := 48, mcs150_biennial_update := "Current",
    safety_rating := "Satisfactory", drug_alcohol_violations := 0,
    fatal_crashes := 0, injury_crashes := 0, fatal_crash_at_fault := false,
    authority_scope_mismatch := false, contact_mismatch := false,
    email_type := "DomainMatch", insurance_holder_is_third_party := false,
    insurer_callback_status := "Verified", load_reposting_observed := false,
    reposting_disclosed := false, vehicle_oos_rate_pct := 0,
    driver_oos_rate_pct := 0, national_avg_vehicle := 20,
    national_avg_driver := 5, total_inspections_24mo := 20,
    bipd_filing_active := true, bipd_limit_usd := 1000000,
    cargo_insurance_verified := true, website_active_12mo := true,
    facebook_active_12mo := true, address_consistent_with_fmcsa := true,
    growth_trend_pct := 30 }

/-- Witness for C7 on the concrete perfect profile `perfectData`. -/
theorem perfect_profile_scores_100_witness :
    (calculateScorecard perfectData "2026-01-01T00:00:00Z").score = 100
    ∧ (calculateScorecard perfectData "2026-01-01T00:00:00Z").recommendation
      = "Approved Low Risk" :=
  perfect_profile_scores_100 perfectData "2026-01-01T00:00:00Z"
    (by decide) (by decide) (by decide) (by decide) (by decide) (by decide)
    (by decide) (by decide) (by decide) (by decide) (by decide) (by decide)
    (by decide) (by decide) (by decide) (by decide) (by decide) (by decide)
    (by decide) (by decide) (by decide) (by decide) (by decide) (by decide)
    (by decide) (by decide)

/-- Witness for C3 at scores 90, 80 and 60. -/
theorem recommendation_thresholds_witness :
    getRecommendation 90 [] = ⟨"Approved Low Risk", "Low Risk"⟩
    ∧ getRecommendation 80 [] = ⟨"Conditional Verification Required", "Moderate Risk"⟩
    ∧ getRecommendation 60 [] = ⟨"Reject / Do Not Use", "High Risk"⟩ :=
  ⟨(recommendation_thresholds 90).1 (by decide),
   (recommendation_thresholds 80).2.1 (by decide) (by decide),
   (recommendation_thresholds 60).2.2 (by decide)⟩

end CarrierScorecard

namespace CarrierScorecard

/-- Upstream crash records that share report number "R1": one line item with a
fatality, one without. -/
def dedupContrastFetched : CSFetched :=
  { carrier_status := some "Active", legal_name := some "ACME", dba_name := none,
    inspections_records := some [], violations_records := some [],
    crash_records := some [⟨"R1", 1⟩, ⟨"R1", 0⟩] }

/-- Counterexample to C6: two raw crash records with the same report number
are counted as two events by the handler (`crash_count = 2`), while the
claimed deduplication would collapse them into one. -/
theorem crash_dedup_counterexample :
    (csHandler "POST" (some "MC123") none (.ok dedupContrastFetched) "t").crash_count
      = some 2
    ∧ specDedupCrashCount [⟨"R1", 1⟩, ⟨"R1", 0⟩] = 1
    ∧ (csHandler "POST" (some "MC123") none (.ok dedupContrastFetched) "t").crash_count
      ≠ some (specDedupCrashCount [⟨"R1", 1⟩, ⟨"R1", 0⟩]) :=
  ⟨by decide, by decide, by decide⟩

/-- C6 amended: the handler performs no deduplication — `crash_count` is the
raw length of the crash records array and `fatal_crashes` counts the raw
records with nonzero fatalities, so records sharing a report number each
count separately. -/
theorem crash_counts_raw (method : String) (mc usdot : Option String)
    (d : CSFetched) (nowIso : String)
    (hm : method = "POST")
    (hid : jsTruthy mc = true ∨ jsTruthy usdot = true) :
    (csHandler method mc usdot (.ok d) nowIso).crash_count
      = some ((d.crash_records.getD []).length)
    ∧ (csHandler method mc usdot (.ok d) nowIso).fatal_crashes
      = some (((d.crash_records.getD []).filter (fun c => 0 < c.fatalities)).length) := by
  subst hm
  have hcond : (jsTruthy mc || jsTruthy usdot) = true := by
    rcases hid with h | h <;> simp [h]
  simp [csHandler, hcond]

/-- Witness for C6's amended statement on the duplicate-report-number input:
both raw records count, and the fatal one is counted once. -/
theorem crash_counts_raw_witness :
    (csHandler "POST" (some "MC123") none (.ok dedupContrastFetched) "t").crash_count
      = some 2
    ∧ (csHandler "POST" (some "MC123") none (.ok dedupContrastFetched) "t").fatal_crashes
      = some 1 := by
  have h := crash_counts_raw "POST" (some "MC123") none dedupContrastFetched "t"
    rfl (Or.inl (by decide))
  exact ⟨h.1.trans (by decide), h.2.trans (by decide)⟩

end CarrierScorecard

/-- Counterexample to C8: a non-2xx upstream response makes the safer-relay
handler answer 404 — with the degraded grade-F auto-reject payload — not 500
as claimed. -/
theorem upstream_failure_status_counterexample :
    (SaferRelay.handler "POST" (some "MC123") none
      (.response false (.error "unparsed")) ⟨0, 2026, 1⟩ "t").status = 404
    ∧ (SaferRelay.handler "POST" (some "MC123") none
      (.response false (.error "unparsed")) ⟨0, 2026, 1⟩ "t").grade = some "F"
    ∧ (SaferRelay.handler "POST" (some "MC123") none
      (.response false (.error "unparsed")) ⟨0, 2026, 1⟩ "t").auto_reject = some "true"
    ∧ (SaferRelay.handler "POST" (some "MC123") none
      (.response false (.error "unparsed")) ⟨0, 2026, 1⟩ "t").status ≠ 500 :=
  ⟨rfl, rfl, rfl, by decide⟩

/-- C8 amended: both handlers answer 405 to a non-POST method and 400 when
both identifiers are missing; a thrown upstream error yields 500 with the
degraded grade-F auto-reject payload in both handlers; but in safer-relay a
non-2xx upstream response yields 404 (with the same degraded payload), and
the carrier-scorecard handler never inspects the response status at all. -/
theorem http_status_contract :
    (∀ (method : String) (mc usdot : Option String) (up : SaferRelay.SRUpstream)
        (now : SaferRelay.SRDate) (nowIso : String), method ≠ "POST" →
      (SaferRelay.handler method mc usdot up now nowIso).status = 405)
    ∧ (∀ (method : String) (mc usdot : Option String)
        (up : CarrierScorecard.CSUpstream) (nowIso : String), method ≠ "POST" →
      (CarrierScorecard.csHandler method mc usdot up nowIso).status = 405)
    ∧ (∀ (mc usdot : Option String) (up : SaferRelay.SRUpstream)
        (now : SaferRelay.SRDate) (nowIso : String),
        jsTruthy mc = false → jsTruthy usdot = false →
      (SaferRelay.handler "POST" mc usdot up now nowIso).status = 400)
    ∧ (∀ (mc usdot : Option String) (up : CarrierScorecard.CSUpstream)
        (nowIso : String), jsTruthy mc = false → jsTruthy usdot = false →
      (CarrierScorecard.csHandler "POST" mc usdot up nowIso).status = 400)
    ∧ (∀ (mc usdot : Option String) (msg : String) (now : SaferRelay.SRDate)
        (nowIso : String), (jsTruthy mc || jsTruthy usdot) = true →
      (SaferRelay.handler "POST" mc usdot (.fetchError msg) now nowIso).status = 500
      ∧ (SaferRelay.handler "POST" mc usdot (.fetchError msg) now nowIso).grade = some "F"
      ∧ (SaferRelay.handler "POST" mc usdot
          (.fetchError msg) now nowIso).auto_reject = some "true")
    ∧ (∀ (mc usdot : Option String) (msg : String) (now : SaferRelay.SRDate)
        (nowIso : String), (jsTruthy mc || jsTruthy usdot) = true →
      (SaferRelay.handler "POST" mc usdot
        (.response true (.error msg)) now nowIso).status = 500
      ∧ (SaferRelay.handler "POST" mc usdot
          (.response true (.error msg)) now nowIso).grade = some "F"
      ∧ (SaferRelay.handler "POST" mc usdot
          (.response true (.error msg)) now nowIso).auto_reject = some "true")
    ∧ (∀ (mc usdot : Option String) (body : Except String SaferRelay.SaferData)
        (now : SaferRelay.SRDate) (nowIso : String),
        (jsTruthy mc || jsTruthy usdot) = true →
      (SaferRelay.handler "POST" mc usdot (.response false body) now nowIso).status = 404
      ∧ (SaferRelay.handler "POST" mc usdot
          (.response false body) now nowIso).grade = some "F"
      ∧ (SaferRelay.handler "POST" mc usdot
          (.response false body) now nowIso).auto_reject = some "true")
    ∧ (∀ (mc usdot : Option String) (msg : String) (nowIso : String),
        (jsTruthy mc || jsTruthy usdot) = true →
      (CarrierScorecard.csHandler "POST" mc usdot (.fetchError msg) nowIso).status = 500
      ∧ (CarrierScorecard.csHandler "POST" mc usdot
          (.fetchError msg) nowIso).grade = some "F"
      ∧ (CarrierScorecard.csHandler "POST" mc usdot
          (.fetchError msg) nowIso).auto_reject = some "true") := by
  refine ⟨?_, ?_, ?_, ?_, ?_, ?_, ?_, ?_⟩
  · intro method mc usdot up now nowIso h
    simp [SaferRelay.handler, h]
  · intro method mc usdot up nowIso h
    simp [CarrierScorecard.csHandler, h]
  · intro mc usdot up now nowIso h1 h2
    simp [SaferRelay.handler, h1, h2]
  · intro mc usdot up nowIso h1 h2
    simp [CarrierScorecard.csHandler, h1, h2]
  · intro mc usdot msg now nowIso h
    refine ⟨?_, ?_, ?_⟩ <;> simp [SaferRelay.handler, SaferRelay.catchResponse, h]
  · intro mc usdot msg now nowIso h
    refine ⟨?_, ?_, ?_⟩ <;> simp [SaferRelay.handler, SaferRelay.catchResponse, h]
  · intro mc usdot body now nowIso h
    refine ⟨?_, ?_, ?_⟩ <;> simp [SaferRelay.handler, h]
  · intro mc usdot msg nowIso h
    refine ⟨?_, ?_, ?_⟩ <;> simp [CarrierScorecard.csHandler, h]

/-- Witness for C8's amended statement: each branch evaluated at a concrete
request. -/
theorem http_status_contract_witness :
    (SaferRelay.handler "GET" (some "MC1") none (.fetchError "e") ⟨0, 2026, 1⟩ "t").status = 405
    ∧ (CarrierScorecard.csHandler "GET" (some "MC1") none (.fetchError "e") "t").status = 405
    ∧ (SaferRelay.handler "POST" none none (.fetchError "e") ⟨0, 2026, 1⟩ "t").status = 400
    ∧ (CarrierScorecard.csHandler "POST" none none (.fetchError "e") "t").status = 400
    ∧ (SaferRelay.handler "POST" (some "MC1") none
        (.fetchError "boom") ⟨0, 2026, 1⟩ "t").status = 500
    ∧ (SaferRelay.handler "POST" (some "MC1") none
        (.response true (.error "bad json")) ⟨0, 2026, 1⟩ "t").grade = some "F"
    ∧ (SaferRelay.handler "POST" (some "MC1") none
        (.response false (.error "unparsed")) ⟨0, 2026, 1⟩ "t").status = 404
    ∧ (CarrierScorecard.csHandler "POST" (some "MC1") none
        (.fetchError "boom") "t").auto_reject = some "true" :=
  ⟨http_status_contract.1 "GET" (some "MC1") none (.fetchError "e") ⟨0, 2026, 1⟩ "t"
      (by decide),
   http_status_contract.2.1 "GET" (some "MC1") none (.fetchError "e") "t" (by decide),
   http_status_contract.2.2.1 none none (.fetchError "e") ⟨0, 2026, 1⟩ "t" rfl rfl,
   http_status_contract.2.2.2.1 none none (.fetchError "e") "t" rfl rfl,
   (http_status_contract.2.2.2.2.1 (some "MC1") none "boom" ⟨0, 2026, 1⟩ "t" (by decide)).1,
   (http_status_contract.2.2.2.2.2.1 (some "MC1") none "bad json" ⟨0, 2026, 1⟩ "t"
      (by decide)).2.1,
   (http_status_contract.2.2.2.2.2.2.1 (some "MC1") none (.error "unparsed")
      ⟨0, 2026, 1⟩ "t" (by decide)).1,
   (http_status_contract.2.2.2.2.2.2.2 (some "MC1") none "boom" "t" (by decide)).2.2⟩

namespace SaferRelay

/-- C10: when the reported inspection counts are zero the OOS rates are
defined to be 0 instead of dividing by zero, and such a carrier collects the
below-average points for both rates (45 + 25; the ≥ 15-inspections bonus does
not apply), both at the level of `calculateOOSScore` and in the handler's 200
payload. -/
theorem zero_inspections_oos (vOOS dOOS vIns dIns : Nat)
    (mc usdot : Option String) (sd : SaferData) (insp : SRInspections)
    (now : SRDate) (nowIso : String)
    (hv : vIns = 0) (hd : dIns = 0)
    (hsd : sd.inspections = some insp)
    (hiv : insp.vehicle_inspections.getD 0 = 0)
    (hid : insp.driver_inspections.getD 0 = 0) :
    oosRate vOOS vIns = 0
    ∧ oosRate dOOS dIns = 0
    ∧ calculateOOSScore (oosRate vOOS vIns) vehicleOOSNationalAvg
        (oosRate dOOS dIns) driverOOSNationalAvg vIns = 45 + 25
    ∧ (successResponse mc usdot sd now nowIso).vehicle_oos_rate = some 0
    ∧ (successResponse mc usdot sd now nowIso).driver_oos_rate = some 0
    ∧ (successResponse mc usdot sd now nowIso).inspections_oos_score = some (45 + 25) := by
  subst hv hd
  have h1 : oosRate vOOS 0 = 0 := by simp [oosRate]
  have h2 : oosRate dOOS 0 = 0 := by simp [oosRate]
  have h3 : calculateOOSScore 0 vehicleOOSNationalAvg 0 driverOOSNationalAvg 0 = 45 + 25 := by
    simp only [calculateOOSScore, vehicleOOSNationalAvg, driverOOSNationalAvg]
    norm_num
  refine ⟨h1, h2, by rw [h1, h2]; exact h3, ?_, ?_, ?_⟩ <;>
    · simp only [successResponse, hsd, Option.getD_some]
      simp [hiv, hid, oosRate, calculateOOSScore,
        vehicleOOSNationalAvg, driverOOSNationalAvg]
      try norm_num

/-- Witness for C10 on a concrete inspections object with absent vehicle
inspections and zero driver inspections. -/
theorem zero_inspections_oos_witness :
    oosRate 5 0 = 0
    ∧ oosRate 3 0 = 0
    ∧ calculateOOSScore (oosRate 5 0) vehicleOOSNationalAvg
        (oosRate 3 0) driverOOSNationalAvg 0 = 45 + 25
    ∧ (successResponse (some "MC1") none
        ⟨none, none, some ⟨none, some 5, some 0, some 3⟩, none⟩
        ⟨0, 2026, 1⟩ "t").vehicle_oos_rate = some 0
    ∧ (successResponse (some "MC1") none
        ⟨none, none, some ⟨none, some 5, some 0, some 3⟩, none⟩
        ⟨0, 2026, 1⟩ "t").driver_oos_rate = some 0
    ∧ (successResponse (some "MC1") none
        ⟨none, none, some ⟨none, some 5, some 0, some 3⟩, none⟩
        ⟨0, 2026, 1⟩ "t").inspections_oos_score = some (45 + 25) :=
  zero_inspections_oos 5 3 0 0 (some "MC1") none
    ⟨none, none, some ⟨none, some 5, some 0, some 3⟩, none⟩
    ⟨none, some 5, some 0, some 3⟩ ⟨0, 2026, 1⟩ "t"
    rfl rfl rfl (by decide) (by decide)

end SaferRelay
